import Mathlib

/-!
Verification of the multi-touch-attribution user-journey tracker.

The repository holds two variants of the `UserJourneyTracker` class:

* `src/src/index.tsx` — the per-event-dedup variant ("Policy B"): before
  logging, the freshly extracted attribution record is compared with the
  last logged event's embedded attribution (`isNewAttributionSource`).
* `src/unnamed/part_001` — the attribution-persistence variant ("Policy A"):
  a single `currentAttribution` record is persisted with an expiry window
  and reused by navigations that carry no marketing parameters.

This file shallowly embeds both variants.  Browser inputs (URL, query
parameters, referrer, time) are passed explicitly as a `Nav` record; the
outcome of the host's URL parser (`new URL(document.referrer)`) is part of
that record, since URL parsing is the browser's code, not the repository's.
`localStorage` is modelled by the `Storage` record; `Math.random`-based
UUID generation is modelled by passing the generated identifier as an
argument.  `sendEventToBackend` performs no local state change and is
therefore not modelled.
-/

namespace MTA

/-- Result of the host's URL parser, as far as the tracker inspects it:
`new URL(s)` yields a scheme (protocol), a hostname and a port.  The
tracker itself only ever reads `hostname`. -/
structure ParsedUrl where
  scheme : String
  hostname : String
  port : String
deriving DecidableEq, Repr

/-- The origin of a parsed URL: scheme, hostname and port together. -/
def ParsedUrl.origin (u : ParsedUrl) : String × String × String :=
  (u.scheme, u.hostname, u.port)

/-- The `AttributionData` interface: 10 optional marketing fields
(7 UTM-style fields and 3 click identifiers), an optional referrer, an
optional landing page, and — in the `part_001` variant only — an optional
capture timestamp.  An absent field models an absent JS object key. -/
structure AttributionData where
  utm_campaign : Option String := none
  utm_medium : Option String := none
  utm_source : Option String := none
  utm_term : Option String := none
  utm_ad_id : Option String := none
  utm_ad_group_id : Option String := none
  utm_campaign_id : Option String := none
  gclid : Option String := none
  fbclid : Option String := none
  mkclid : Option String := none
  referrer : Option String := none
  landing_page : Option String := none
  attribution_timestamp : Option Nat := none
deriving DecidableEq, Repr

/-- The 10 recognized marketing fields (the keys that are neither
`referrer`, `landing_page` nor `attribution_timestamp`). -/
inductive MField where
  | utm_campaign | utm_medium | utm_source | utm_term
  | utm_ad_id | utm_ad_group_id | utm_campaign_id
  | gclid | fbclid | mkclid
deriving DecidableEq, Repr

/-- Read one marketing field of an attribution record. -/
def getField (a : AttributionData) : MField → Option String
  | .utm_campaign => a.utm_campaign
  | .utm_medium => a.utm_medium
  | .utm_source => a.utm_source
  | .utm_term => a.utm_term
  | .utm_ad_id => a.utm_ad_id
  | .utm_ad_group_id => a.utm_ad_group_id
  | .utm_campaign_id => a.utm_campaign_id
  | .gclid => a.gclid
  | .fbclid => a.fbclid
  | .mkclid => a.mkclid

/-- All 10 marketing fields, in the order the source lists the
corresponding query parameters. -/
def mfields : List MField :=
  [.utm_source, .utm_medium, .utm_campaign, .utm_term,
   .utm_ad_id, .utm_ad_group_id, .utm_campaign_id,
   .gclid, .fbclid, .mkclid]

/-- The query-parameter name of a marketing field. -/
def MField.key : MField → String
  | .utm_campaign => "utm_campaign"
  | .utm_medium => "utm_medium"
  | .utm_source => "utm_source"
  | .utm_term => "utm_term"
  | .utm_ad_id => "utm_ad_id"
  | .utm_ad_group_id => "utm_ad_group_id"
  | .utm_campaign_id => "utm_campaign_id"
  | .gclid => "gclid"
  | .fbclid => "fbclid"
  | .mkclid => "mkclid"

/-- The `PageViewEvent` interface: one logged navigation. -/
structure PageViewEvent where
  url : String
  timestamp : Nat
  referrer : Option String := none
  title : Option String := none
  attribution : AttributionData := {}
  uuid : String
  is_loggedin : Bool
  event_id : String
deriving DecidableEq, Repr

/-- The `UserJourneyTrackerOptions` after the constructor merged in the
defaults (`cookieDomain` is plumbing and not modelled). -/
structure Options where
  cookieExpireDays : Nat := 365
  maxEvents : Nat := 100
  resetOnLogin : Bool := true
  resetOnSignup : Bool := true
  autoTrack : Bool := true
  trackHashChange : Bool := true
  trackHistoryChange : Bool := true
  attributionExpiry : Nat := 30 * 24 * 60
deriving DecidableEq, Repr

/-- The options the constructor builds when the caller supplies none. -/
def defaultOptions : Options := {}

/-- The slice of `localStorage` the tracker reads and writes, one field
per fixed storage key (`user_journey_history`, `..._user_id`,
`..._old_uuid`, `..._attribution`); `none` models an absent key. -/
structure Storage where
  journeyEvents : Option (List PageViewEvent) := none
  userId : Option String := none
  oldUuid : Option String := none
  attribution : Option AttributionData := none
deriving DecidableEq, Repr

/-- One navigation as the browser presents it to the tracker:
`window.location` (href, pathname, and the origin parts scheme, hostname,
port), the decoded query parameters in order, `document.referrer` (the
empty string when absent) together with the outcome of parsing it
(`none` when `new URL(document.referrer)` throws), `document.title`, and
`Date.now()` at the moment of the navigation. -/
structure Nav where
  href : String
  params : List (String × String) := []
  pathname : String
  scheme : String := "https"
  hostname : String
  port : String := ""
  referrer : String := ""
  referrerParsed : Option ParsedUrl := none
  title : String := ""
  now : Nat
deriving DecidableEq, Repr

/-- The origin of the current page. -/
def Nav.origin (nav : Nav) : String × String × String :=
  (nav.scheme, nav.hostname, nav.port)

/-- `url.searchParams.get(name)` guarded by the source's truthiness check
`if (value)`: the first value of the parameter, and only when it is a
non-empty string. -/
def getParam (nav : Nav) (name : String) : Option String :=
  match nav.params.find? (fun p => p.1 = name) with
  | some p => if p.2 = "" then none else some p.2
  | none => none

/-- `x || undefined` on a string: the string when non-empty, else absent. -/
def stringOrNone (s : String) : Option String :=
  if s = "" then none else some s

/-- `parseAttributionData` as both variants write it (the `part_001`
variant additionally stamps `attribution_timestamp`, see
`VariantA.parseAttributionData`):
each of the 10 marketing query parameters is copied when present and
non-empty; the referrer is kept only when `document.referrer` is
non-empty, parses as a URL, and its hostname differs from the current
page's hostname (a parse failure is caught and the field omitted);
`landing_page` is always set to the current pathname. -/
def parseAttributionData (nav : Nav) : AttributionData :=
  { utm_campaign := getParam nav "utm_campaign"
    utm_medium := getParam nav "utm_medium"
    utm_source := getParam nav "utm_source"
    utm_term := getParam nav "utm_term"
    utm_ad_id := getParam nav "utm_ad_id"
    utm_ad_group_id := getParam nav "utm_ad_group_id"
    utm_campaign_id := getParam nav "utm_campaign_id"
    gclid := getParam nav "gclid"
    fbclid := getParam nav "fbclid"
    mkclid := getParam nav "mkclid"
    referrer :=
      if nav.referrer = "" then none
      else match nav.referrerParsed with
        | some p => if p.hostname = nav.hostname then none else some nav.referrer
        | none => none
    landing_page := some nav.pathname
    attribution_timestamp := none }

/-- The trimming step of `addEvent`, shared verbatim by both variants:
push the event, then, if the length exceeds `maxEvents`, keep the slice
starting at `length - maxEvents` (the most recent `maxEvents` entries). -/
def addEventList (max : Nat) (events : List PageViewEvent)
    (e : PageViewEvent) : List PageViewEvent :=
  let evs := events ++ [e]
  if max < evs.length then evs.drop (evs.length - max) else evs

/-- A whole run of `addEvent` calls starting from an empty log. -/
def runAppends (max : Nat) (xs : List PageViewEvent) : List PageViewEvent :=
  xs.foldl (addEventList max) []

theorem addEventList_eq_drop (max : Nat) (l : List PageViewEvent)
    (e : PageViewEvent) :
    addEventList max l e = (l ++ [e]).drop ((l.length + 1) - max) := by
  unfold addEventList
  by_cases h : max < (l ++ [e]).length
  · simp only [h, if_true]
    simp [List.length_append]
  · simp only [h, if_false]
    have h2 : (l ++ [e]).length ≤ max := Nat.le_of_not_lt h
    have h3 : (l.length + 1) - max = 0 := by
      simp only [List.length_append, List.length_cons, List.length_nil] at h2
      omega
    simp [h3]

theorem foldl_addEventList (max : Nat) (xs acc : List PageViewEvent)
    (hacc : acc.length ≤ max) :
    xs.foldl (addEventList max) acc =
      (acc ++ xs).drop (acc.length + xs.length - max) := by
  induction xs generalizing acc with
  | nil =>
    simp only [List.foldl_nil, List.append_nil, List.length_nil, Nat.add_zero]
    have : acc.length - max = 0 := by omega
    rw [this, List.drop_zero]
  | cons x xs ih =>
    rw [List.foldl_cons, addEventList_eq_drop]
    set d := (acc.length + 1) - max with hd
    have hdle : d ≤ (acc ++ [x]).length := by
      simp only [List.length_append, List.length_cons, List.length_nil]
      omega
    have hlen : ((acc ++ [x]).drop d).length ≤ max := by
      rw [List.length_drop]
      simp only [List.length_append, List.length_cons, List.length_nil]
      omega
    rw [ih _ hlen]
    rw [List.length_drop]
    have happ : (acc ++ [x]).drop d ++ xs = ((acc ++ [x]) ++ xs).drop d :=
      (List.drop_append_of_le_length hdle).symm
    rw [happ, List.drop_drop]
    congr 1
    · simp only [List.length_append, List.length_cons, List.length_nil]
      omega
    · simp

/-- The retained log after any run of appends is the most-recent-`max`
suffix of everything appended. -/
theorem runAppends_eq_drop (max : Nat) (xs : List PageViewEvent) :
    runAppends max xs = xs.drop (xs.length - max) := by
  unfold runAppends
  rw [foldl_addEventList max xs [] (by simp)]
  simp

namespace VariantB

/-- The mutable fields of the `UserJourneyTracker` class of
`src/src/index.tsx` (the variant without `currentAttribution`), together
with its slice of `localStorage`. -/
structure State where
  options : Options := {}
  events : List PageViewEvent := []
  uuid : String
  derivUserId : Option String := none
  isLoggedIn : Bool := false
  oldUuid : Option String := none
  lastTrackedUrl : String := ""
  currentPageEventId : Option String := none
  storage : Storage := {}
deriving DecidableEq, Repr

/-- `addEvent`: push, trim to the most recent `maxEvents`, persist. -/
def addEvent (s : State) (e : PageViewEvent) : State :=
  let events := addEventList s.options.maxEvents s.events e
  { s with events := events, storage.journeyEvents := some events }

/-- `isNewAttributionSource`: track when the log is empty, or the URL
changed, or some entry of the fresh record (referrer and landing page
skipped) is truthy and differs from the last event's value for that key.
`Object.entries(attribution)` lists only the keys present in the fresh
record, so the comparison runs over exactly those. -/
def isNewAttributionSource (events : List PageViewEvent) (href : String)
    (attribution : AttributionData) : Bool :=
  match events.getLast? with
  | none => true
  | some lastEvent =>
    if lastEvent.url ≠ href then true
    else mfields.any fun f =>
      match getField attribution f with
      | some v => v ≠ "" && getField lastEvent.attribution f ≠ some v
      | none => false

/-- The `PageViewEvent` literal both variants build in
`trackCurrentPageView` (`eventId` stands for the freshly generated
UUID). -/
def mkEvent (nav : Nav) (attribution : AttributionData) (uuid : String)
    (isLoggedIn : Bool) (eventId : String) : PageViewEvent :=
  { url := nav.href
    timestamp := nav.now
    referrer := stringOrNone nav.referrer
    title := stringOrNone nav.title
    attribution := attribution
    uuid := uuid
    is_loggedin := isLoggedIn
    event_id := eventId }

/-- `trackCurrentPageView` of the `index.tsx` variant: extract
attribution, and only when `isNewAttributionSource` holds, record the
new event id and append the event. -/
def trackCurrentPageView (s : State) (nav : Nav) (eventId : String) :
    State :=
  let attribution := parseAttributionData nav
  if isNewAttributionSource s.events nav.href attribution then
    addEvent { s with currentPageEventId := some eventId }
      (mkEvent nav attribution s.uuid s.isLoggedIn eventId)
  else s

end VariantB

/-- The skip condition of claim C2 as the claim words it: the log is
non-empty, the URL equals the last logged event's URL, and no marketing
field of the fresh record differs from the last event's — where a field
present in the last event but absent from the fresh record counts as a
difference (so the comparison is plain equality of the two optional
values, in both directions). -/
def claimedSkip (events : List PageViewEvent) (href : String)
    (fresh : AttributionData) : Bool :=
  match events.getLast? with
  | none => false
  | some lastEvent =>
    lastEvent.url = href &&
      mfields.all fun f => getField fresh f == getField lastEvent.attribution f

/-- A last logged event whose attribution carries a marketing field. -/
def cexLastEvent : PageViewEvent :=
  { url := "https://app.example.com/promo"
    timestamp := 1000
    attribution := { utm_source := some "google", landing_page := some "/promo" }
    uuid := "device-1"
    is_loggedin := false
    event_id := "evt-1" }

/-- A repeat navigation to the same URL whose query carries no marketing
field, so the fresh record lacks `utm_source`. -/
def cexNav : Nav :=
  { href := "https://app.example.com/promo"
    pathname := "/promo"
    hostname := "app.example.com"
    now := 2000 }

/-- A tracker state whose log holds exactly `cexLastEvent`. -/
def cexState : VariantB.State :=
  { events := [cexLastEvent]
    uuid := "device-1"
    lastTrackedUrl := "https://app.example.com/promo" }

namespace VariantA

/-- `parseAttributionData` of the `part_001` variant: the shared
extraction plus a capture timestamp (`Date.now()`). -/
def parseAttributionData (nav : Nav) : AttributionData :=
  { MTA.parseAttributionData nav with attribution_timestamp := some nav.now }

/-- `hasNewAttributionData`: some of the 10 marketing fields is present
(`!== undefined`) in the record extracted from the URL. -/
def hasNewAttributionData (newAttribution : AttributionData) : Bool :=
  mfields.any fun f => (getField newAttribution f).isSome

/-- `Object.keys(a).length > 0`: some key of the record is present. -/
def hasAnyKey (a : AttributionData) : Bool :=
  (mfields.any fun f => (getField a f).isSome) ||
    a.referrer.isSome || a.landing_page.isSome || a.attribution_timestamp.isSome

/-- The mutable fields of the `UserJourneyTracker` class of
`src/unnamed/part_001` (the variant with `currentAttribution`), together
with its slice of `localStorage`. -/
structure State where
  options : Options := {}
  events : List PageViewEvent := []
  uuid : String
  derivUserId : Option String := none
  isLoggedIn : Bool := false
  oldUuid : Option String := none
  lastTrackedUrl : String := ""
  currentPageEventId : Option String := none
  currentAttribution : AttributionData := {}
  storage : Storage := {}
deriving DecidableEq, Repr

/-- `saveAttributionData`: persist `currentAttribution` under the
attribution storage key. -/
def saveAttributionData (s : State) : State :=
  { s with storage.attribution := some s.currentAttribution }

/-- `loadAttributionData` at time `now`: read the stored record; the
guard `if (attribution.attribution_timestamp)` is a JS truthiness test,
so the expiry check runs only when the capture timestamp is present AND
non-zero (0 is falsy).  A truthy timestamp keeps the record only while
its age in minutes is at most `attributionExpiry` (the source computes
`(now - timestamp) / 60000 <= attributionExpiry`, which over the exact
values equals `now - timestamp <= attributionExpiry * 60000`), removing
the expired entry; an absent — or zero, hence falsy — timestamp adopts
the record as-is with no expiry check. -/
def loadAttributionData (s : State) (now : Nat) : State :=
  match s.storage.attribution with
  | none => s
  | some attribution =>
    match attribution.attribution_timestamp with
    | some ts =>
      if ts = 0 then { s with currentAttribution := attribution }
      else if now - ts ≤ s.options.attributionExpiry * 60000 then
        { s with currentAttribution := attribution }
      else
        { s with storage.attribution := none }
    | none => { s with currentAttribution := attribution }

/-- `getAttributionForPageView`: fresh marketing data wins and is
persisted; otherwise a non-empty `currentAttribution` is reused with
`landing_page` rewritten to the current pathname; otherwise the (empty)
fresh record is used.  Returns the chosen record and the state after the
branch's side effects. -/
def getAttributionForPageView (s : State) (nav : Nav) :
    AttributionData × State :=
  let urlAttribution := parseAttributionData nav
  if hasNewAttributionData urlAttribution then
    (urlAttribution,
      saveAttributionData { s with currentAttribution := urlAttribution })
  else if hasAnyKey s.currentAttribution then
    ({ s.currentAttribution with landing_page := some nav.pathname }, s)
  else
    (urlAttribution, s)

/-- `addEvent`: push, trim to the most recent `maxEvents`, persist
(`sendEventToBackend` changes no local state). -/
def addEvent (s : State) (e : PageViewEvent) : State :=
  let events := addEventList s.options.maxEvents s.events e
  { s with events := events, storage.journeyEvents := some events }

/-- `trackCurrentPageView` of the `part_001` variant: skip a repeat of
`lastTrackedUrl`; otherwise remember the URL, pick the attribution, and
append a fresh event carrying it. -/
def trackCurrentPageView (s : State) (nav : Nav) (eventId : String) :
    State :=
  if s.lastTrackedUrl = nav.href then s
  else
    let s1 := { s with lastTrackedUrl := nav.href }
    let r := getAttributionForPageView s1 nav
    addEvent { r.2 with currentPageEventId := some eventId }
      (VariantB.mkEvent nav r.1 r.2.uuid r.2.isLoggedIn eventId)

/-- The in-place update `events[findIndex].is_loggedin = b`: rewrite the
first event whose `event_id` matches, leave the rest alone. -/
def setLoginFirst (events : List PageViewEvent) (eventId : String)
    (b : Bool) : List PageViewEvent :=
  match events with
  | [] => []
  | e :: rest =>
    if e.event_id = eventId then { e with is_loggedin := b } :: rest
    else e :: setLoginFirst rest eventId b

/-- `updateEventLoginState`: when an event with the id exists, flip its
flag and persist the log; otherwise do nothing. -/
def updateEventLoginState (s : State) (eventId : String) (b : Bool) :
    State :=
  if s.events.any fun e => e.event_id = eventId then
    let events := setLoginFirst s.events eventId b
    { s with events := events, storage.journeyEvents := some events }
  else s

/-- `clearEvents`: empty the in-memory log and remove its storage key. -/
def clearEvents (s : State) : State :=
  { s with events := [], storage.journeyEvents := none }

/-- `recordLogin`: mark logged in, persist the user id, flip the current
event's flag when a current event id is set (truthy), then reset the log
when `resetOnLogin` is configured. -/
def recordLogin (s : State) (derivUserId : String) : State :=
  let s1 := { s with isLoggedIn := true, derivUserId := some derivUserId,
                     storage.userId := some derivUserId }
  let s2 := match s1.currentPageEventId with
    | some id => if id = "" then s1 else updateEventLoginState s1 id true
    | none => s1
  if s2.options.resetOnLogin then clearEvents s2 else s2

/-- `recordSignup`: remember the device identifier as `oldUuid`, mark
logged in, persist the user id and (when truthy) the old UUID, flip the
current event's flag, then reset the log when `resetOnSignup` is
configured. -/
def recordSignup (s : State) (derivUserId : String) : State :=
  let s1 := { s with oldUuid := some s.uuid, isLoggedIn := true,
                     derivUserId := some derivUserId,
                     storage.userId := some derivUserId }
  let s2 := if s.uuid = "" then s1
            else { s1 with storage.oldUuid := some s.uuid }
  let s3 := match s2.currentPageEventId with
    | some id => if id = "" then s2 else updateEventLoginState s2 id true
    | none => s2
  if s3.options.resetOnSignup then clearEvents s3 else s3

/-- The object `exportJourney` returns. -/
structure Journey where
  uuid : String
  deriv_user_id : Option String
  old_uuid : Option String
  events : List PageViewEvent
deriving DecidableEq, Repr

/-- `exportJourney`: the identifiers (`x || undefined` drops the empty
string) and the full event list. -/
def exportJourney (s : State) : Journey :=
  { uuid := s.uuid
    deriv_user_id := match s.derivUserId with
      | some u => if u = "" then none else some u
      | none => none
    old_uuid := match s.oldUuid with
      | some u => if u = "" then none else some u
      | none => none
    events := s.events }

end VariantA

/-! ## Reference semantics of `getEvents`

`getEvents` returns `[...this.events]`.  In JavaScript an array holds
references to its element objects, so the spread copies the array cell
but shares the `PageViewEvent` objects.  To state what a caller's
mutations can reach, this fragment of the JS heap is made explicit: a
store of array cells (lists of object addresses) and a store of event
objects.  Addresses index the stores; a fresh allocation appends. -/

/-- Array cells and event-object cells of the heap. -/
structure Mem where
  arrays : List (List Nat)
  objs : List PageViewEvent
deriving DecidableEq, Repr

/-- The object addresses an array cell holds (`[]` for a dangling
address, which never arises in the states considered). -/
def Mem.readArr (m : Mem) (a : Nat) : List Nat :=
  (m.arrays[a]?).getD []

/-- The event object at an address. -/
def Mem.readObj (m : Mem) (o : Nat) : Option PageViewEvent :=
  m.objs[o]?

/-- The event sequence an array address denotes: its object references,
dereferenced. -/
def Mem.view (m : Mem) (a : Nat) : List (Option PageViewEvent) :=
  (m.readArr a).map m.readObj

/-- `getEvents` under reference semantics: allocate a fresh array cell
holding the same object references as the tracker's `events` array (at
address `eventsArr`) and return the new cell's address. -/
def getEventsHeap (m : Mem) (eventsArr : Nat) : Nat × Mem :=
  (m.arrays.length, { m with arrays := m.arrays ++ [m.readArr eventsArr] })

/-- A caller's write to slot `i` of the array at address `a`
(`returned[i] = ...`). -/
def setArrayElem (m : Mem) (a i o : Nat) : Mem :=
  { m with arrays := m.arrays.set a ((m.readArr a).set i o) }

/-- A caller's write to the event object at address `o`
(e.g. `returned[0].is_loggedin = true`). -/
def setObj (m : Mem) (o : Nat) (e : PageViewEvent) : Mem :=
  { m with objs := m.objs.set o e }

/-- A one-event heap for the C9 counterexample: the tracker's internal
`events` array lives at array address 0 and references the event object
at object address 0. -/
def c9Event : PageViewEvent :=
  { url := "https://app.example.com/"
    timestamp := 1
    uuid := "device-1"
    is_loggedin := false
    event_id := "evt-1" }

/-- The heap before the caller's mutation. -/
def c9Mem : Mem := { arrays := [[0]], objs := [c9Event] }

/-! ## Helper lemmas -/

theorem mem_mfields (f : MField) : f ∈ mfields := by
  cases f <;> simp [mfields]

theorem addEventList_getLast? (max : Nat) (l : List PageViewEvent)
    (e : PageViewEvent) (h : 0 < max) :
    (addEventList max l e).getLast? = some e := by
  rw [addEventList_eq_drop]
  have hd : (l.length + 1) - max ≤ l.length := by omega
  rw [List.drop_append_of_le_length hd]
  exact List.getLast?_concat _

namespace VariantA

theorem setLoginFirst_length (l : List PageViewEvent) (id : String)
    (b : Bool) : (setLoginFirst l id b).length = l.length := by
  induction l with
  | nil => rfl
  | cons e rest ih =>
    by_cases h : e.event_id = id <;> simp [setLoginFirst, h, ih]

theorem setLoginFirst_getElem? (l : List PageViewEvent) (id : String)
    (b : Bool) (i : Nat) :
    (setLoginFirst l id b)[i]? = l[i]? ∨
    ∃ e, l[i]? = some e ∧ e.event_id = id ∧
      (setLoginFirst l id b)[i]? = some { e with is_loggedin := b } := by
  induction l generalizing i with
  | nil => left; simp [setLoginFirst]
  | cons e rest ih =>
    by_cases h : e.event_id = id
    · cases i with
      | zero => right; exact ⟨e, by simp, h, by simp [setLoginFirst, h]⟩
      | succ n => left; simp [setLoginFirst, h]
    · cases i with
      | zero => left; simp [setLoginFirst, h]
      | succ n => simpa [setLoginFirst, h] using ih n

end VariantA

/-- Claim C5's "only change": the new log has the same length, and each
entry is either untouched or is the current-page event with its
authenticated flag set to true. -/
def onlyFlagChange (old new : List PageViewEvent)
    (curId : Option String) : Prop :=
  new.length = old.length ∧
  ∀ i : Nat,
    new[i]? = old[i]? ∨
    ∃ e, old[i]? = some e ∧ curId = some e.event_id ∧
      new[i]? = some { e with is_loggedin := true }

/-! ## The claims -/

/-- C1: for every sequence of `addEvent` calls with configured maximum
`max` (default 100), after each append the log's length is at most `max`
and the retained events are exactly the `max` most recently appended
events in their original relative order — the oldest are discarded
first, never the newest (the log is the most-recent-`max` suffix of the
appended sequence). -/
theorem eventLog_bounded_fifo :
    defaultOptions.maxEvents = 100 ∧
    ∀ (max : Nat) (xs : List PageViewEvent),
      (runAppends max xs).length ≤ max ∧
      runAppends max xs = xs.drop (xs.length - max) := by
  refine ⟨rfl, fun max xs => ⟨?_, runAppends_eq_drop max xs⟩⟩
  rw [runAppends_eq_drop, List.length_drop]
  omega

/-- C2 counterexample: the last logged event carries `utm_source` while
the fresh record extracted from the same URL carries no marketing field.
The claim's skip condition fails (a field present only in the last event
counts as a difference for the claim), so the claim demands a new event —
yet `trackCurrentPageView` logs nothing, because
`Object.entries(attribution)` never visits the missing key. -/
theorem dedup_skip_counterexample :
    claimedSkip cexState.events cexNav.href (parseAttributionData cexNav) =
      false ∧
    (VariantB.trackCurrentPageView cexState cexNav "evt-2").events =
      cexState.events := by
  constructor
  · decide
  · rfl

/-- C2 as amended: under Policy B nothing is logged exactly when the log
is non-empty, the URL equals the last logged event's URL, and every
marketing field present (with a non-empty value) in the freshly
extracted record equals the corresponding field of the last event's
attribution; fields absent from the fresh record are not compared.
Otherwise a new `VisitEvent` is appended (and trimmed to `maxEvents`). -/
theorem dedup_skip_amended :
    (∀ (events : List PageViewEvent) (href : String) (a : AttributionData),
      VariantB.isNewAttributionSource events href a = false ↔
        ∃ lastEvent, events.getLast? = some lastEvent ∧
          lastEvent.url = href ∧
          ∀ (f : MField) (v : String), getField a f = some v → v ≠ "" →
            getField lastEvent.attribution f = some v) ∧
    (∀ (s : VariantB.State) (nav : Nav) (eventId : String),
      (VariantB.isNewAttributionSource s.events nav.href
          (parseAttributionData nav) = false →
        VariantB.trackCurrentPageView s nav eventId = s) ∧
      (VariantB.isNewAttributionSource s.events nav.href
          (parseAttributionData nav) = true →
        (VariantB.trackCurrentPageView s nav eventId).events =
          (s.events ++ [VariantB.mkEvent nav (parseAttributionData nav)
            s.uuid s.isLoggedIn eventId]).drop
            ((s.events.length + 1) - s.options.maxEvents))) := by
  constructor
  · intro events href a
    cases hl : events.getLast? with
    | none => simp [VariantB.isNewAttributionSource, hl]
    | some lastEvent =>
      simp only [VariantB.isNewAttributionSource, hl]
      by_cases hu : lastEvent.url = href
      · rw [if_neg (by simp [hu])]
        rw [List.any_eq_false]
        constructor
        · intro h
          refine ⟨lastEvent, rfl, hu, fun f v hv hne => ?_⟩
          have hf := h f (mem_mfields f)
          rw [hv] at hf
          simpa [hne] using hf
        · rintro ⟨l, hl2, _, hfields⟩
          obtain rfl : lastEvent = l := by simpa using hl2
          intro f _
          cases hv : getField a f with
          | none => simp
          | some v =>
            simp only [Bool.not_eq_true, Bool.and_eq_false_iff]
            by_cases hne : v = ""
            · left; simp [hne]
            · right; simp [hfields f v hv hne]
      · rw [if_pos (by simpa using hu)]
        simp only [Bool.true_eq_false, false_iff]
        rintro ⟨l, hl2, hurl, -⟩
        obtain rfl : lastEvent = l := by simpa using hl2
        exact hu hurl
  · intro s nav eventId
    constructor
    · intro h
      simp [VariantB.trackCurrentPageView, h]
    · intro h
      simp [VariantB.trackCurrentPageView, h, VariantB.addEvent,
        addEventList_eq_drop]

theorem VariantA.addEvent_getLast? (s : VariantA.State) (e : PageViewEvent)
    (h : 0 < s.options.maxEvents) :
    (VariantA.addEvent s e).events.getLast? = some e := by
  simp only [VariantA.addEvent]
  exact addEventList_getLast? _ _ _ h

theorem VariantA.updateEventLoginState_options (s : VariantA.State)
    (id : String) (b : Bool) :
    (VariantA.updateEventLoginState s id b).options = s.options := by
  unfold VariantA.updateEventLoginState
  split <;> rfl

theorem VariantA.updateEventLoginState_oldUuid (s : VariantA.State)
    (id : String) (b : Bool) :
    (VariantA.updateEventLoginState s id b).oldUuid = s.oldUuid := by
  unfold VariantA.updateEventLoginState
  split <;> rfl

theorem VariantA.updateEventLoginState_onlyFlagChange (s : VariantA.State)
    (id : String) :
    onlyFlagChange s.events (VariantA.updateEventLoginState s id true).events
      (some id) := by
  unfold VariantA.updateEventLoginState
  by_cases h : (s.events.any fun e => e.event_id = id) = true
  · simp only [h, if_true]
    refine ⟨VariantA.setLoginFirst_length _ _ _, fun i => ?_⟩
    rcases VariantA.setLoginFirst_getElem? s.events id true i with
      h1 | ⟨e, he, hid, hnew⟩
    · left; exact h1
    · right; exact ⟨e, he, by rw [hid], hnew⟩
  · simp only [h, if_false]
    exact ⟨rfl, fun i => Or.inl rfl⟩

theorem onlyFlagChange_rfl (l : List PageViewEvent) (c : Option String) :
    onlyFlagChange l l c :=
  ⟨rfl, fun _ => Or.inl rfl⟩

/-- A fresh tracker state with the default options (used by the
witnesses). -/
def wState : VariantA.State := { uuid := "device-1" }

/-- A navigation without marketing parameters. -/
def w3nav : Nav :=
  { href := "https://app.example.com/checkout"
    pathname := "/checkout"
    hostname := "app.example.com"
    now := 5000 }

/-- A navigation carrying a marketing parameter. -/
def w4nav : Nav :=
  { href := "https://app.example.com/?utm_source=google"
    params := [("utm_source", "google")]
    pathname := "/"
    hostname := "app.example.com"
    now := 123 }

/-- C3: under Policy A, a navigation whose URL carries none of the 10
marketing fields produces an event whose attribution is the persisted
`currentAttribution` with its landing page replaced by the current path
when that record is non-empty, and the freshly extracted record
otherwise; `currentAttribution` itself is left untouched. -/
theorem policyA_inherits_attribution (s : VariantA.State) (nav : Nav)
    (eventId : String)
    (hm : VariantA.hasNewAttributionData (VariantA.parseAttributionData nav)
      = false)
    (hurl : s.lastTrackedUrl ≠ nav.href)
    (hmax : 0 < s.options.maxEvents) :
    (VariantA.trackCurrentPageView s nav eventId).events.getLast? = some
      (VariantB.mkEvent nav
        (if VariantA.hasAnyKey s.currentAttribution then
          { s.currentAttribution with landing_page := some nav.pathname }
        else VariantA.parseAttributionData nav)
        s.uuid s.isLoggedIn eventId) ∧
    (VariantA.trackCurrentPageView s nav eventId).currentAttribution =
      s.currentAttribution := by
  unfold VariantA.trackCurrentPageView
  rw [if_neg hurl]
  simp only [VariantA.getAttributionForPageView, hm, Bool.false_eq_true,
    if_false]
  by_cases hk : VariantA.hasAnyKey s.currentAttribution = true
  · simp only [hk, if_true]
    exact ⟨VariantA.addEvent_getLast? _ _ hmax, rfl⟩
  · simp only [hk, if_false]
    exact ⟨VariantA.addEvent_getLast? _ _ hmax, rfl⟩

theorem policyA_inherits_attribution_witness :
    (VariantA.trackCurrentPageView wState w3nav "evt-3").events.getLast? =
      some (VariantB.mkEvent w3nav (VariantA.parseAttributionData w3nav)
        "device-1" false "evt-3") := by
  have h := (policyA_inherits_attribution wState w3nav "evt-3"
    (by decide) (by decide) (by decide)).1
  rwa [if_neg (by decide)] at h

/-- C4: under Policy A, a navigation whose URL carries at least one of
the 10 marketing fields produces an event whose attribution is exactly
the record extracted from that URL (no field of any earlier persisted
record survives), and `currentAttribution` is overwritten with that
record and persisted. -/
theorem policyA_fresh_attribution_wins (s : VariantA.State) (nav : Nav)
    (eventId : String)
    (hm : VariantA.hasNewAttributionData (VariantA.parseAttributionData nav)
      = true)
    (hurl : s.lastTrackedUrl ≠ nav.href)
    (hmax : 0 < s.options.maxEvents) :
    (VariantA.trackCurrentPageView s nav eventId).events.getLast? = some
      (VariantB.mkEvent nav (VariantA.parseAttributionData nav)
        s.uuid s.isLoggedIn eventId) ∧
    (VariantA.trackCurrentPageView s nav eventId).currentAttribution =
      VariantA.parseAttributionData nav ∧
    (VariantA.trackCurrentPageView s nav eventId).storage.attribution =
      some (VariantA.parseAttributionData nav) := by
  unfold VariantA.trackCurrentPageView
  rw [if_neg hurl]
  simp only [VariantA.getAttributionForPageView, hm, if_true,
    VariantA.saveAttributionData]
  exact ⟨VariantA.addEvent_getLast? _ _ hmax, rfl, rfl⟩

theorem policyA_fresh_attribution_wins_witness :
    (VariantA.trackCurrentPageView wState w4nav "evt-4").storage.attribution
      = some (VariantA.parseAttributionData w4nav) :=
  (policyA_fresh_attribution_wins wState w4nav "evt-4"
    (by decide) (by decide) (by decide)).2.2

/-- C5: `recordLogin`/`recordSignup` with the reset option true (the
default) leave the Event Log empty; with it false they retain every
logged event and change at most the current-page event, whose
authenticated flag is set to true. -/
theorem record_auth_reset_or_flag :
    ∀ (s : VariantA.State) (uid : String),
      ((s.options.resetOnLogin = true →
          (VariantA.recordLogin s uid).events = []) ∧
       (s.options.resetOnLogin = false →
          onlyFlagChange s.events (VariantA.recordLogin s uid).events
            s.currentPageEventId)) ∧
      ((s.options.resetOnSignup = true →
          (VariantA.recordSignup s uid).events = []) ∧
       (s.options.resetOnSignup = false →
          onlyFlagChange s.events (VariantA.recordSignup s uid).events
            s.currentPageEventId)) := by
  intro s uid
  refine ⟨⟨?_, ?_⟩, ?_⟩
  · intro h
    unfold VariantA.recordLogin
    cases hc : s.currentPageEventId with
    | none => simp [hc, h, VariantA.clearEvents]
    | some id =>
      by_cases hid : id = ""
      · simp [hc, hid, h, VariantA.clearEvents]
      · simp [hc, hid, h, VariantA.clearEvents,
          VariantA.updateEventLoginState_options]
  · intro h
    unfold VariantA.recordLogin
    cases hc : s.currentPageEventId with
    | none =>
      simp [hc, h]
      exact onlyFlagChange_rfl _ _
    | some id =>
      by_cases hid : id = ""
      · simp [hc, hid, h]
        exact onlyFlagChange_rfl _ _
      · simp [hc, hid, h, VariantA.updateEventLoginState_options]
        exact VariantA.updateEventLoginState_onlyFlagChange _ id
  · by_cases hu : s.uuid = "" <;>
      refine ⟨?_, ?_⟩ <;> intro h <;> unfold VariantA.recordSignup
    · cases hc : s.currentPageEventId with
      | none => simp [hc, h, hu, VariantA.clearEvents]
      | some id =>
        by_cases hid : id = ""
        · simp [hc, hid, h, hu, VariantA.clearEvents]
        · simp [hc, hid, h, hu, VariantA.clearEvents,
            VariantA.updateEventLoginState_options]
    · cases hc : s.currentPageEventId with
      | none =>
        simp [hc, h, hu]
        exact onlyFlagChange_rfl _ _
      | some id =>
        by_cases hid : id = ""
        · simp [hc, hid, h, hu]
          exact onlyFlagChange_rfl _ _
        · simp [hc, hid, h, hu, VariantA.updateEventLoginState_options]
          exact VariantA.updateEventLoginState_onlyFlagChange _ id
    · cases hc : s.currentPageEventId with
      | none => simp [hc, h, hu, VariantA.clearEvents]
      | some id =>
        by_cases hid : id = ""
        · simp [hc, hid, h, hu, VariantA.clearEvents]
        · simp [hc, hid, h, hu, VariantA.clearEvents,
            VariantA.updateEventLoginState_options]
    · cases hc : s.currentPageEventId with
      | none =>
        simp [hc, h, hu]
        exact onlyFlagChange_rfl _ _
      | some id =>
        by_cases hid : id = ""
        · simp [hc, hid, h, hu]
          exact onlyFlagChange_rfl _ _
        · simp [hc, hid, h, hu, VariantA.updateEventLoginState_options]
          exact VariantA.updateEventLoginState_onlyFlagChange _ id

/-- C6: `recordSignup` always sets the prior device identifier to the
device identifier in effect immediately before the call — overwriting
any value an earlier transition left there, since every state `s` is
covered — and the value is retrievable afterward through
`exportJourney`'s `old_uuid` field. -/
theorem recordSignup_prior_uuid (s : VariantA.State) (uid : String)
    (h : s.uuid ≠ "") :
    (VariantA.recordSignup s uid).oldUuid = some s.uuid ∧
    (VariantA.exportJourney (VariantA.recordSignup s uid)).old_uuid =
      some s.uuid := by
  have hold : (VariantA.recordSignup s uid).oldUuid = some s.uuid := by
    unfold VariantA.recordSignup
    cases hc : s.currentPageEventId with
    | none => simp [hc, h, VariantA.clearEvents]; split <;> rfl
    | some id =>
      by_cases hid : id = ""
      · simp [hc, hid, h, VariantA.clearEvents]; split <;> rfl
      · simp [hc, hid, h, VariantA.clearEvents,
          VariantA.updateEventLoginState_options,
          VariantA.updateEventLoginState_oldUuid]
        split <;> simp [VariantA.updateEventLoginState_oldUuid]
  refine ⟨hold, ?_⟩
  simp [VariantA.exportJourney, hold, h]

theorem recordSignup_prior_uuid_witness :
    (VariantA.exportJourney (VariantA.recordSignup wState "user-42")).old_uuid
      = some "device-1" :=
  (recordSignup_prior_uuid wState "user-42" (by decide)).2

/-- A stored attribution record captured at epoch 0 — its timestamp is
present but falsy in JS. -/
def w7attr : AttributionData :=
  { utm_source := some "google"
    landing_page := some "/"
    attribution_timestamp := some 0 }

/-- A default-options tracker state whose storage holds `w7attr`. -/
def w7State : VariantA.State :=
  { uuid := "device-1", storage := { attribution := some w7attr } }

/-- C7 counterexample: the stored record `w7attr` carries the capture
timestamp 0, and at `now` = 30 days + 1 minute its age exceeds the
default expiry window — the claim demands the record be treated as
absent and the backing entry removed.  Yet `loadAttributionData` adopts
the record and keeps the entry, because the guard
`if (attribution.attribution_timestamp)` is a JS truthiness test and 0
is falsy, so the expiry check never runs. -/
theorem attribution_zero_timestamp_counterexample :
    w7attr.attribution_timestamp = some 0 ∧
    defaultOptions.attributionExpiry * 60000 <
      (43200 * 60000 + 60000) - 0 ∧
    VariantA.loadAttributionData w7State (43200 * 60000 + 60000) =
      { w7State with currentAttribution := w7attr } ∧
    (VariantA.loadAttributionData w7State
        (43200 * 60000 + 60000)).storage.attribution = some w7attr := by
  exact ⟨rfl, by decide, rfl, rfl⟩

/-- C7 as amended: `loadAttributionData` adopts a stored record carrying
a non-zero capture timestamp only while its age is at most the
configured expiry window (default 43200 minutes = 30 days; the source
compares `(now - timestamp) / 60000` minutes against
`attributionExpiry`, which over these values equals
`now - timestamp ≤ attributionExpiry * 60000`); an older such record is
left unadopted and its storage entry removed; a record without a
capture timestamp — or with the falsy timestamp 0 — is adopted as-is
with no expiry check. -/
theorem attribution_expiry_on_load (s : VariantA.State) (now : Nat)
    (a : AttributionData) (ha : s.storage.attribution = some a) :
    defaultOptions.attributionExpiry = 43200 ∧
    (∀ t, a.attribution_timestamp = some t → t ≠ 0 →
      ((now - t ≤ s.options.attributionExpiry * 60000 →
          VariantA.loadAttributionData s now =
            { s with currentAttribution := a }) ∧
       (s.options.attributionExpiry * 60000 < now - t →
          VariantA.loadAttributionData s now =
            { s with storage := { s.storage with attribution := none } }))) ∧
    (a.attribution_timestamp = none ∨ a.attribution_timestamp = some 0 →
      VariantA.loadAttributionData s now =
        { s with currentAttribution := a }) := by
  refine ⟨rfl, fun t ht ht0 => ⟨fun hle => ?_, fun hgt => ?_⟩, fun hn => ?_⟩
  · unfold VariantA.loadAttributionData
    simp [ha, ht, ht0, hle]
  · unfold VariantA.loadAttributionData
    simp [ha, ht, ht0, Nat.not_le.mpr hgt]
  · unfold VariantA.loadAttributionData
    rcases hn with hn | hn <;> simp [ha, hn]

/-- A stored attribution record captured at epoch millisecond 1 (a
truthy timestamp). -/
def w7attrLate : AttributionData :=
  { utm_source := some "google"
    landing_page := some "/"
    attribution_timestamp := some 1 }

/-- A default-options tracker state whose storage holds `w7attrLate`. -/
def w7StateLate : VariantA.State :=
  { uuid := "device-1", storage := { attribution := some w7attrLate } }

theorem attribution_expiry_on_load_witness :
    VariantA.loadAttributionData w7StateLate (43200 * 60000 + 2) =
      { w7StateLate with storage :=
          { w7StateLate.storage with attribution := none } } :=
  ((attribution_expiry_on_load w7StateLate (43200 * 60000 + 2) w7attrLate
    rfl).2.1 1 rfl (by decide)).2 (by decide)

/-- The parse of the referrer of `c8nav`: same hostname as the current
page but a different scheme, hence a different origin. -/
def c8ref : ParsedUrl :=
  { scheme := "http", hostname := "example.com", port := "" }

/-- A navigation on `https://example.com` whose referrer is the
cross-origin, same-hostname URL `http://example.com/other`. -/
def c8nav : Nav :=
  { href := "https://example.com/page"
    pathname := "/page"
    scheme := "https"
    hostname := "example.com"
    port := ""
    referrer := "http://example.com/other"
    referrerParsed := some c8ref
    now := 0 }

/-- C8 counterexample: the referrer `http://example.com/other` is
non-empty, parses, and its origin differs from the current page's
origin `https://example.com` (different scheme) — yet the extractor
omits the referrer, because it compares hostnames only. -/
theorem referrer_origin_counterexample :
    c8nav.referrer ≠ "" ∧
    c8nav.referrerParsed = some c8ref ∧
    c8ref.origin ≠ c8nav.origin ∧
    (parseAttributionData c8nav).referrer = none := by
  decide

/-- C8 as amended: the extracted record contains a referrer field
exactly when the document referrer is non-empty, parses as a valid URL,
and its hostname differs from the current page's hostname; same-hostname
referrers (even when scheme or port, hence the origin, differ) and
malformed referrer URLs are omitted, and the field is never anything but
the document referrer. -/
theorem referrer_hostname_rule (nav : Nav) :
    ((parseAttributionData nav).referrer = some nav.referrer ↔
      nav.referrer ≠ "" ∧
        ∃ p, nav.referrerParsed = some p ∧ p.hostname ≠ nav.hostname) ∧
    ((parseAttributionData nav).referrer = none ∨
      (parseAttributionData nav).referrer = some nav.referrer) := by
  simp only [parseAttributionData]
  by_cases hr : nav.referrer = ""
  · simp [hr]
  · cases hp : nav.referrerParsed with
    | none => simp [hr, hp]
    | some p =>
      by_cases hh : p.hostname = nav.hostname
      · simp [hr, hp, hh]
      · simp [hr, hp, hh]

/-- C9 counterexample: the address of the single event object is
reachable through the array `getEvents` returns, and a caller's write to
that object (setting its authenticated flag) changes the event sequence
the tracker's internal array denotes — the spread in `getEvents` copies
the array, not the event objects. -/
theorem getEvents_deep_mutation_counterexample :
    0 ∈ Mem.readArr (getEventsHeap c9Mem 0).2 (getEventsHeap c9Mem 0).1 ∧
    Mem.view (setObj (getEventsHeap c9Mem 0).2 0
        { c9Event with is_loggedin := true }) 0 ≠
      Mem.view c9Mem 0 := by
  decide

/-- C9 as amended: `getEvents` returns a fresh array cell denoting the
same event sequence as the internal Event Log, and mutations of the
returned array itself cannot reach the tracker's internal array — but
the event objects are shared (see the counterexample), so mutations of
the records reachable through the copy do change the internal log. -/
theorem getEvents_shallow_copy (m : Mem) (eventsArr : Nat)
    (h : eventsArr < m.arrays.length) :
    (getEventsHeap m eventsArr).1 ≠ eventsArr ∧
    Mem.view (getEventsHeap m eventsArr).2 (getEventsHeap m eventsArr).1 =
      Mem.view (getEventsHeap m eventsArr).2 eventsArr ∧
    ∀ i o : Nat,
      Mem.readArr (setArrayElem (getEventsHeap m eventsArr).2
          (getEventsHeap m eventsArr).1 i o) eventsArr =
        Mem.readArr m eventsArr := by
  have hne : m.arrays.length ≠ eventsArr := by omega
  have hold : Mem.readArr (getEventsHeap m eventsArr).2 eventsArr =
      Mem.readArr m eventsArr := by
    simp [getEventsHeap, Mem.readArr, List.getElem?_append_left h]
  refine ⟨hne, ?_, fun i o => ?_⟩
  · have hnew : Mem.readArr (getEventsHeap m eventsArr).2
        (getEventsHeap m eventsArr).1 = Mem.readArr m eventsArr := by
      simp [getEventsHeap, Mem.readArr, List.getElem?_concat_length]
    unfold Mem.view
    rw [hnew, hold]
  · rw [← hold]
    show ((getEventsHeap m eventsArr).2.arrays.set
        (getEventsHeap m eventsArr).1 _)[eventsArr]?.getD [] = _
    have hfst : (getEventsHeap m eventsArr).1 = m.arrays.length := rfl
    rw [hfst, List.getElem?_set_ne hne]
    rfl

theorem getEvents_shallow_copy_witness :
    (getEventsHeap c9Mem 0).1 ≠ 0 ∧
    Mem.view (getEventsHeap c9Mem 0).2 (getEventsHeap c9Mem 0).1 =
      Mem.view (getEventsHeap c9Mem 0).2 0 :=
  ⟨(getEvents_shallow_copy c9Mem 0 (by decide)).1,
   (getEvents_shallow_copy c9Mem 0 (by decide)).2.1⟩

/-- C10: `clearEvents` empties the Event Log and removes its persisted
copy, and leaves every other part of the tracker state — options, device
identifier, authenticated-user identifier, prior device identifier,
logged-in flag, current attribution record, last-tracked URL,
current-page event identifier, and the other storage keys — exactly as
it was. -/
theorem clearEvents_frame (s : VariantA.State) :
    (VariantA.clearEvents s).events = [] ∧
    (VariantA.clearEvents s).storage.journeyEvents = none ∧
    (VariantA.clearEvents s).options = s.options ∧
    (VariantA.clearEvents s).uuid = s.uuid ∧
    (VariantA.clearEvents s).derivUserId = s.derivUserId ∧
    (VariantA.clearEvents s).isLoggedIn = s.isLoggedIn ∧
    (VariantA.clearEvents s).oldUuid = s.oldUuid ∧
    (VariantA.clearEvents s).lastTrackedUrl = s.lastTrackedUrl ∧
    (VariantA.clearEvents s).currentPageEventId = s.currentPageEventId ∧
    (VariantA.clearEvents s).currentAttribution = s.currentAttribution ∧
    (VariantA.clearEvents s).storage.userId = s.storage.userId ∧
    (VariantA.clearEvents s).storage.oldUuid = s.storage.oldUuid ∧
    (VariantA.clearEvents s).storage.attribution = s.storage.attribution :=
  ⟨rfl, rfl, rfl, rfl, rfl, rfl, rfl, rfl, rfl, rfl, rfl, rfl, rfl⟩

end MTA
